import Mathlib

/-!
Formal model of the Elliott 903 emulator (`src/emu900.c`) and verification of
claims about its specification.

Modelling conventions, tied to the C source:

* The 16 384-cell array `int32_t store[STORE_SIZE]` is modelled as a function
  `Nat → Nat` together with an explicit bound test at exactly the places the
  C code indexes the array; no defined execution path reads or writes a cell
  outside `0..STORE_SIZE-1`.  `storeWrite` is a single C array assignment.
* Store cells and the A/Q registers are `Nat` values; the emulator keeps them
  in the 18-bit range `[0, 2^18)` (every store instruction masks with
  `MASK18`).  Sign handling in the C source is explicit
  (`x >= BIT18 ? x - BIT19 : x`), and is mirrored verbatim by `signed18`.
* 64-bit signed intermediates (`int64_t` in C) are `Int`.  On two's-complement
  machines `x & MASK18` on an `int64_t` equals the non-negative residue
  `x % 2^18`, which is exactly Lean's `Int` `%` (Euclidean remainder, always
  in `[0, 2^18)` for the positive modulus); `intMask18` packages this.  C's
  `>>` on a signed 64-bit value is an arithmetic shift, i.e. floor division
  by a power of two, which for a positive divisor is exactly Lean's `Int`
  `/` (Euclidean division coincides with floor division when the divisor is
  positive).  C's `/` on signed integers truncates towards zero, which is
  `Int.tdiv`.
* `instruction & ADDR_MASK` is `instruction % 8192` (`ADDR_MASK = 2^13 - 1`),
  `x & MASK16` is `x % 65536`, and `x & MOD_MASK` (`MOD_MASK = 0o160000`,
  bits 13..15) is `8192 * (x / 8192 % 8)`; the OR in the address formation
  `(instruction & ADDR_MASK) | (lastSCR & MOD_MASK)` is addition because the
  two operands occupy disjoint bit ranges.
* The C program's interaction with the host is reified: peripheral byte
  streams are lists, and process exit is a `halt` carrying an `ExitInfo`
  record that says which exit code was returned and whether the exit path
  wrote the store image back (`writeStore`), spilled residual reader tape to
  the save file, and closed the peripheral files.  `tidyExit` models the C
  function of the same name; a bare C `exit()` is `exitNow`.
* Genuine C undefined behaviour — an out-of-bounds store access (the array
  has `STORE_SIZE` elements) or a division by zero — is modelled by the
  dedicated result `StepResult.undefined`; no defined result exists for it.
* Diagnostic tracing, the monitor option and the `-r` trace window only
  produce log output (or, for `-r`, rewrite `abandon`); they are outside
  every claim and are not modelled.  `flushTTY` only affects host stdout
  line buffering and is likewise not part of the machine state.
-/

namespace Emu900

/-! ## Constants from the DEFINES section of emu900.c -/

def STORE_SIZE : Nat := 16384
def MASK18 : Nat := 0o777777
def BIT18 : Nat := 0o400000
def BIT19 : Nat := 0o1000000
def MASK16 : Nat := 0o177777
def ADDR_MASK : Nat := 8191
def MOD_MASK : Nat := 0o160000
def SCRLEVEL1 : Nat := 0
def SCRLEVEL4 : Nat := 6
def BREGLEVEL1 : Nat := 1
def BREGLEVEL4 : Nat := 7

/-- Reel of paper tape in characters: `10*12*1000` in the C source. -/
def REEL : Int := 10 * 12 * 1000

/-- Exit codes (`EXIT_DYNSTOP`, `EXIT_RDRSTOP`, `EXIT_TTYSTOP`,
`EXIT_LIMITSTOP`, `EXIT_PUNSTOP`; `EXIT_FAILURE` is 1). -/
def EXIT_DYNSTOP : Nat := 0
def EXIT_RDRSTOP : Nat := 2
def EXIT_TTYSTOP : Nat := 4
def EXIT_LIMITSTOP : Nat := 8
def EXIT_PUNSTOP : Nat := 16

/-! ## Basic helpers -/

/-- Sign extension of an 18-bit word, exactly as written in the C source:
`( x >= BIT18 ) ? x - BIT19 : x`. -/
def signed18 (w : Nat) : Int :=
  if w ≥ BIT18 then (w : Int) - (BIT19 : Int) else (w : Int)

/-- `x & MASK18` on a two's-complement `int64_t`, i.e. the non-negative
residue of `x` modulo `2^18`, returned as the 18-bit word it denotes. -/
def intMask18 (x : Int) : Nat := (x % (BIT19 : Int)).toNat

/-- A single C array assignment `store[i] = v`. -/
def storeWrite (st : Nat → Nat) (i v : Nat) : Nat → Nat :=
  fun j => if j = i then v else st j

/-- Instruction encoding helper `makeIns` from the C source:
`(m << 17) | (f << 13) | a`. -/
def makeIns (m f a : Nat) : Nat := (m <<< 17) ||| (f <<< 13) ||| a

/-! ## Machine state -/

/-- The mutable state of the emulated machine together with its peripheral
streams.  `bReg` and `scReg` are, as in the C source, the *store addresses*
of the current B register and sequence control register.  `reader`, `ttyIn`
are the unconsumed bytes of the paper-tape reader and teletype input files;
`punched`, `ttyOut`, `plotter` record the bytes sent to the punch, the
teletype (host stdout) and the plotter. -/
structure MachineState where
  store : Nat → Nat
  aReg : Nat
  qReg : Nat
  bReg : Nat
  scReg : Nat
  level : Nat
  punchCount : Int
  ttyCount : Int
  lastttych : Int
  reader : List Nat
  punched : List Nat
  ttyIn : List Nat
  ttyOut : List Nat
  plotter : List Nat

/-- What the process did on exit: the exit code, whether the exit path wrote
the store image back (`writeStore`), copied residual reader input to the
save file, closed the peripheral files, what (if anything) was written to
the stop file, and whether a diagnostic was printed unconditionally on this
path (as opposed to verbose-gated logging). -/
structure ExitInfo where
  code : Nat
  storeWritten : Bool
  residualSaved : Bool
  filesClosed : Bool
  stopFile : Option Nat
  diagPrinted : Bool
deriving DecidableEq

/-- Model of the C function `tidyExit(reason)`: if `storeValid` it writes the
store image and spills residual reader tape to the save file; it always
closes the peripheral files and exits with `reason`.  (`storeValid` is set
once `readStore` has run, i.e. before the first instruction executes.) -/
def tidyExit (storeValid : Bool) (reason : Nat) : ExitInfo :=
  { code := reason
    storeWritten := storeValid
    residualSaved := storeValid
    filesClosed := true
    stopFile := none
    diagPrinted := false }

/-- A fatal emulator error: a diagnostic is printed and `tidyExit(EXIT_FAILURE)`
is called.  During emulation `storeValid` is `true`, so the store *is*
written back. -/
def fatalExit : ExitInfo :=
  { tidyExit true 1 with diagPrinted := true }

/-- A bare C `exit(reason)` that bypasses `tidyExit` entirely (used by
`punchTape` and `readTTY` on character-count overflow): nothing is persisted
and no files are closed.  Both call sites print a diagnostic first. -/
def exitNow (reason : Nat) : ExitInfo :=
  { code := reason
    storeWritten := false
    residualSaved := false
    filesClosed := false
    stopFile := none
    diagPrinted := true }

/-- Result of one trip round the fetch-decode-execute loop: continue in a new
state, exit the process, or run into C undefined behaviour. -/
inductive StepResult where
  | next (s : MachineState) : StepResult
  | halt (e : ExitInfo) : StepResult
  | undefined : StepResult

/-- The A register of the state a step continued into, if it did. -/
def StepResult.regA : StepResult → Option Nat
  | .next s => some s.aReg
  | _ => none

/-- The Q register of the state a step continued into, if it did. -/
def StepResult.regQ : StepResult → Option Nat
  | .next s => some s.qReg
  | _ => none

/-- A store cell of the state a step continued into, if it did. -/
def StepResult.storeAt : StepResult → Nat → Option Nat
  | .next s, i => some (s.store i)
  | _, _ => none

/-- The exit record of a step that halted, if it did. -/
def StepResult.haltInfo : StepResult → Option ExitInfo
  | .halt e => some e
  | _ => none

/-- Whether a step ran into C undefined behaviour. -/
def StepResult.isUndefined : StepResult → Bool
  | .undefined => true
  | _ => false

/-! ## The shift instruction (function 14) -/

/-- Core of function 14 (Shift), from the C source.  `places = m & ADDR_MASK`.
The combined register is the 36-bit signed value `aql = (al << 18) | ql`
(`al` the sign-extended A, `ql = Q`; the OR is addition because the low 18
bits of `al << 18` are zero).  Left shifts (`places <= 2047`) and arithmetic
right shifts (`places >= 6144`, by `8192 - places`) are capped at 36 places;
any other place count is unsupported and `none` is returned (the caller
exits fatally).  The result pair is `(new A, new Q)` where Q receives
`aql & MASK18` and A receives `(aql >> 18) & MASK18`.  The C left shift can
overflow the `int64_t`, but only bits 0..35 of the result are consumed and
those agree with the exact integer product. -/
def shift14 (places a q : Nat) : Option (Nat × Nat) :=
  let aql : Int := signed18 a * (BIT19 : Int) + (q : Int)
  if places ≤ 2047 then
    let pl := if places ≥ 36 then 36 else places
    let r := aql * 2 ^ pl
    some (intMask18 (r / (BIT19 : Int)), intMask18 r)
  else if places ≥ 6144 then
    let pl0 := 8192 - places
    let pl := if pl0 ≥ 36 then 36 else pl0
    let r := aql / 2 ^ pl
    some (intMask18 (r / (BIT19 : Int)), intMask18 r)
  else none

/-! ## The function unit -/

/-- One execution of the function switch in `emulate()`, after the effective
address `m` has been formed.  Mirrors the C `switch (f)` case by case;
`checkAddress(m)` appears as `if m ≥ STORE_SIZE then .halt fatalExit`.
Store accesses the C performs *without* a preceding `checkAddress` (function
1's read and function 11's write) are modelled with an explicit bounds test
whose failure is `StepResult.undefined`, because the C array access is undefined
behaviour there. -/
def execFn (s : MachineState) (f m : Nat) : StepResult :=
  match f with
  | 0 => -- Load B
    if m ≥ STORE_SIZE then .halt fatalExit else
    let w := s.store m
    .next { s with qReg := w, store := storeWrite s.store s.bReg w }
  | 1 => -- Add: no checkAddress in the C source
    if m < STORE_SIZE then
      .next { s with aReg := (s.aReg + s.store m) % BIT19 }
    else .undefined
  | 2 => -- Negate and add: (qReg - aReg) is int32 arithmetic, then & MASK18
    if m ≥ STORE_SIZE then .halt fatalExit else
    let w := s.store m
    .next { s with qReg := w, aReg := intMask18 ((w : Int) - (s.aReg : Int)) }
  | 3 => -- Store Q: store[m] = qReg >> 1
    if m ≥ STORE_SIZE then .halt fatalExit else
    .next { s with store := storeWrite s.store m (s.qReg / 2) }
  | 4 => -- Load A
    if m ≥ STORE_SIZE then .halt fatalExit else
    .next { s with aReg := s.store m }
  | 5 => -- Store A, suppressed for the initial-instructions cells at level 1
    if s.level = 1 ∧ 8180 ≤ m ∧ m ≤ 8191 then
      .next s
    else
      if m ≥ STORE_SIZE then .halt fatalExit else
      .next { s with store := storeWrite s.store m s.aReg }
  | 6 => -- Collate
    if m ≥ STORE_SIZE then .halt fatalExit else
    .next { s with aReg := s.aReg &&& s.store m }
  | 7 => -- Jump if zero
    if s.aReg = 0 then .next { s with store := storeWrite s.store s.scReg m }
    else .next s
  | 8 => -- Jump unconditional
    .next { s with store := storeWrite s.store s.scReg m }
  | 9 => -- Jump if negative
    if s.aReg ≥ BIT18 then .next { s with store := storeWrite s.store s.scReg m }
    else .next s
  | 10 => -- Increment in store
    if m ≥ STORE_SIZE then .halt fatalExit else
    .next { s with store := storeWrite s.store m ((s.store m + 1) % BIT19) }
  | 11 => -- Store S: no checkAddress in the C source
    let scrv := s.store s.scReg
    if m < STORE_SIZE then
      .next { s with qReg := 8192 * (scrv / 8192 % 8)
                     store := storeWrite s.store m (scrv % 8192) }
    else .undefined
  | 12 => -- Multiply
    if m ≥ STORE_SIZE then .halt fatalExit else
    let al := signed18 s.aReg
    let sl := signed18 (s.store m)
    let prod := al * sl
    let q1 := intMask18 (prod * 2)
    let q2 := if al < 0 then q1 ||| 1 else q1
    .next { s with qReg := q2, aReg := intMask18 (prod / 131072) }
  | 13 => -- Divide: C computes aql / ml with no zero check (UB when ml = 0)
    if m ≥ STORE_SIZE then .halt fatalExit else
    let al := signed18 s.aReg
    let aql := al * (BIT19 : Int) + (s.qReg : Int)
    let ml := signed18 (s.store m)
    if ml = 0 then .undefined
    else
      let q := intMask18 (Int.tdiv aql ml / 2)
      .next { s with aReg := q ||| 1, qReg := q &&& 0o777776 }
  | 14 => -- Shift
    match shift14 (m % 8192) s.aReg s.qReg with
    | some p => .next { s with aReg := p.1, qReg := p.2 }
    | none => .halt fatalExit
  | 15 => -- Input/output etc, dispatching on z = m & ADDR_MASK
    let z := m % 8192
    if z = 2048 then -- read from tape reader
      match s.reader with
      | [] => .halt (tidyExit true EXIT_RDRSTOP)
      | ch :: rest =>
        .next { s with aReg := ((s.aReg <<< 7) ||| ch) &&& MASK18
                       reader := rest }
    else if z = 2052 then -- read from teletype (cap check, then read, echo)
      if s.ttyCount ≥ REEL then .halt (exitNow EXIT_PUNSTOP)
      else
        match s.ttyIn with
        | [] => .halt (tidyExit true EXIT_TTYSTOP)
        | ch :: rest =>
          .next { s with aReg := ((s.aReg <<< 7) ||| ch) &&& MASK18
                         ttyCount := s.ttyCount + 1
                         ttyIn := rest
                         ttyOut := s.ttyOut ++ [ch &&& 127] }
    else if z = 4864 then -- send to plotter (raster semantics out of scope)
      .next { s with plotter := s.plotter ++ [s.aReg] }
    else if z = 6144 then -- write to paper tape punch
      if s.punchCount ≥ REEL then .halt (exitNow EXIT_PUNSTOP)
      else
        .next { s with punchCount := s.punchCount + 1
                       punched := s.punched ++ [s.aReg &&& 255] }
    else if z = 6148 then -- write to teletype: LF and printable 32..122 only
      let c := (s.aReg &&& 255) &&& 127
      if c = 10 ∨ (32 ≤ c ∧ c ≤ 122) then
        .next { s with ttyOut := s.ttyOut ++ [c], lastttych := (c : Int) }
      else .next s
    else if z = 7168 then -- level terminate
      .next { s with level := 4, scReg := SCRLEVEL4, bReg := BREGLEVEL4 }
    else .halt fatalExit -- unsupported 15 i/o instruction
  | _ => .next s

/-! ## The session manager loop body -/

/-- Command-line options that influence the loop itself.  Only `abandon`
matters to the claims (default `-1`, i.e. no instruction limit). -/
structure Config where
  abandon : Int
deriving DecidableEq

def defaultCfg : Config := { abandon := -1 }

/-- The end-of-iteration checks of `emulate()`, in source order: the
instruction limit (exit `EXIT_LIMITSTOP` through `tidyExit`) and the dynamic
stop (write `lastSCR` to the stop file, then exit `EXIT_DYNSTOP` through
`tidyExit`). -/
def postChecks (cfg : Config) (s : MachineState) (lastSCR : Nat)
    (iCount : Int) : StepResult :=
  if cfg.abandon ≠ -1 ∧ iCount ≥ cfg.abandon then
    .halt (tidyExit true EXIT_LIMITSTOP)
  else if s.store s.scReg = lastSCR then
    .halt { tidyExit true EXIT_DYNSTOP with stopFile := some lastSCR }
  else .next s

/-- One full iteration of the fetch-decode-execute loop of `emulate()`:
read the SCR, increment it in store, bounds-check the fetch address, decode
`f`/`a`/`m` (with B modification when bit 18 of the instruction is set),
execute, then run the end-of-iteration checks. -/
def step (cfg : Config) (s0 : MachineState) (iCount : Int) : StepResult :=
  let lastSCR := s0.store s0.scReg
  let s := { s0 with store := storeWrite s0.store s0.scReg (lastSCR + 1) }
  if lastSCR ≥ STORE_SIZE then .halt fatalExit
  else
    let instruction := s.store lastSCR
    let f := instruction / 8192 % 16
    let a := instruction % 8192 + 8192 * (lastSCR / 8192 % 8)
    let m := if instruction ≥ BIT18
             then (a + s.store s.bReg) % 65536
             else a % 65536
    match execFn s f m with
    | .next s1 => postChecks cfg s1 lastSCR iCount
    | .halt e => .halt e
    | .undefined => .undefined

/-! ## Session start-up -/

/-- A cleared store (`clearStore` in the C source). -/
def clearedStore : Nat → Nat := fun _ => 0

/-- Overlay a store image, given as address/value pairs, onto a store
(the effect of `readStore` for the claims' concrete scenarios). -/
def applyImage : (Nat → Nat) → List (Nat × Nat) → Nat → Nat
  | st, [] => st
  | st, (a, v) :: rest => applyImage (storeWrite st a v) rest

/-- Install the initial orders (`loadII` in the C source). -/
def loadII (st : Nat → Nat) : Nat → Nat :=
  storeWrite (storeWrite (storeWrite (storeWrite (storeWrite (storeWrite
    (storeWrite (storeWrite (storeWrite (storeWrite (storeWrite (storeWrite
      st 8180 (intMask18 (-3)))
      8181 (makeIns 0 0 8180))
      8182 (makeIns 0 4 8189))
      8183 (makeIns 0 15 2048))
      8184 (makeIns 0 9 8186))
      8185 (makeIns 0 8 8183))
      8186 (makeIns 0 15 2048))
      8187 (makeIns 1 5 8180))
      8188 (makeIns 0 10 1))
      8189 (makeIns 0 4 1))
      8190 (makeIns 0 9 8182))
      8191 (makeIns 0 8 8177)

/-- The machine as `emulate()` sets it up before the first instruction:
cleared store, overlaid image, initial orders installed, SCR cell set from
the operator keys; level 1, registers zero, character counts `-1`. -/
def startMachine (image : List (Nat × Nat)) (opKeys : Nat)
    (reader ttyIn : List Nat) : MachineState :=
  { store := storeWrite (loadII (applyImage clearedStore image)) SCRLEVEL1 opKeys
    aReg := 0
    qReg := 0
    bReg := BREGLEVEL1
    scReg := SCRLEVEL1
    level := 1
    punchCount := -1
    ttyCount := -1
    lastttych := -1
    reader := reader
    punched := []
    ttyIn := ttyIn
    ttyOut := []
    plotter := [] }

/-! ## The store dump (`writeStore`) -/

/-- One token of `writeStore`'s output: a `%7d`-formatted decimal field, or a
newline character. -/
inductive OutItem where
  | field (n : Nat) : OutItem
  | nl : OutItem
deriving DecidableEq

/-- The output of the `writeStore` loop for cells `i, i+1, ..., i+n-1`: each
iteration prints the cell in a seven-column field and then, when
`(i % 10) == 0 && i != 0`, a newline. -/
def writeItems (st : Nat → Nat) : Nat → Nat → List OutItem
  | _, 0 => []
  | i, n + 1 =>
    OutItem.field (st i) ::
      ((if i % 10 = 0 ∧ i ≠ 0 then [OutItem.nl] else []) ++
        writeItems st (i + 1) n)

/-- The full output of `writeStore` for a store. -/
def writeStoreOut (st : Nat → Nat) : List OutItem :=
  writeItems st 0 STORE_SIZE

/-- The word count of each output line: `lineLens items acc` walks the items
with `acc` fields already on the current line. -/
def lineLens : List OutItem → Nat → List Nat
  | [], acc => [acc]
  | OutItem.nl :: rest, acc => acc :: lineLens rest 0
  | OutItem.field _ :: rest, acc => lineLens rest (acc + 1)

/-- The list of cell indices `i, i+1, ..., i+n-1`. -/
def cellRun : Nat → Nat → List Nat
  | _, 0 => []
  | i, n + 1 => i :: cellRun (i + 1) n

/-- Multiply semantics as the specification words them: sign-extend A and
store[m], take the product `p`; Q gets `(p << 1) AND (2^18-1)` with bit 0
ORed in when A was negative; A gets `(p >> 17) AND (2^18-1)` with an
arithmetic right shift. -/
def multiplySpecA (a w : Nat) : Nat :=
  intMask18 ((signed18 a * signed18 w) / 131072)

/-- Q half of the specification's multiply semantics. -/
def multiplySpecQ (a w : Nat) : Nat :=
  let p := signed18 a * signed18 w
  let q0 := intMask18 (p * 2)
  if signed18 a < 0 then q0 ||| 1 else q0

/-! ## Concrete machine states used by the claims -/

def c1State : MachineState := startMachine [] 16500 [] []

def c2State : MachineState :=
  { startMachine [(50, makeIns 0 3 8180)] 50 [] [] with qReg := 6 }

def c3State : MachineState :=
  { startMachine [(50, makeIns 0 15 6144)] 50 [] [] with
      aReg := 65, punchCount := 120000 }

def c4State : MachineState :=
  startMachine [(50, makeIns 1 1 0), (1, 16384)] 50 [] []

def c4StateLoad : MachineState :=
  startMachine [(50, makeIns 1 4 0), (1, 16384)] 50 [] []

def c5State : MachineState :=
  { startMachine [(50, makeIns 0 12 500), (500, 3)] 50 [] [] with aReg := 2 }

def c6State : MachineState :=
  { startMachine [(50, makeIns 0 12 500), (500, 1)] 50 [] [] with aReg := 262143 }

def c8State : MachineState := startMachine [(100, makeIns 0 8 100)] 100 [] []

def c10State : MachineState := startMachine [] 50 [] []


/-! ## Verification of the claims -/


/-! ## Claim C1 -/

/-- C1 counterexample: a fatal emulator error (here a shift with place count
3000, in the unsupported band 2048..6143) exits with code 1 but *with* the
store written back, contradicting the claim that fatal errors exit without
writing the Store to the store image file. -/
theorem C1_counterexample :
    execFn c1State 14 3000 = .halt fatalExit ∧
    fatalExit.code = 1 ∧ fatalExit.storeWritten = true := by
  exact ⟨rfl, rfl, rfl⟩

/-- C1 (amended): each fatal emulator error — the SCR cell reaching
`STORE_SIZE`, a checked effective address past the store bounds, a shift
place count in 2048..6143, or an unsupported function-15 sub-address —
prints a diagnostic and exits with code 1, and (because the store image was
marked valid at load) the Store IS written back to the store image file. -/
theorem C1_fatal_error_exit :
    (∀ cfg s i, s.store s.scReg ≥ STORE_SIZE → step cfg s i = .halt fatalExit) ∧
    (∀ s m f, f ∈ ([0, 2, 3, 4, 5, 6, 10, 12, 13] : List Nat) →
      m ≥ STORE_SIZE → execFn s f m = .halt fatalExit) ∧
    (∀ s m, 2048 ≤ m % 8192 → m % 8192 ≤ 6143 → execFn s 14 m = .halt fatalExit) ∧
    (∀ s m, m % 8192 ≠ 2048 → m % 8192 ≠ 2052 → m % 8192 ≠ 4864 →
      m % 8192 ≠ 6144 → m % 8192 ≠ 6148 → m % 8192 ≠ 7168 →
      execFn s 15 m = .halt fatalExit) ∧
    (fatalExit.code = 1 ∧ fatalExit.diagPrinted = true ∧
      fatalExit.storeWritten = true) := by
  refine ⟨?_, ?_, ?_, ?_, rfl, rfl, rfl⟩
  · intro cfg s i h
    simp only [step]
    rw [if_pos h]
  · intro s m f hf hm
    simp only [List.mem_cons, List.mem_singleton, List.not_mem_nil, or_false] at hf
    rcases hf with rfl | rfl | rfl | rfl | rfl | rfl | rfl | rfl | rfl
    · simp only [execFn]; rw [if_pos hm]
    · simp only [execFn]; rw [if_pos hm]
    · simp only [execFn]; rw [if_pos hm]
    · simp only [execFn]; rw [if_pos hm]
    · simp only [execFn, STORE_SIZE] at hm ⊢
      rw [if_neg (by omega), if_pos hm]
    · simp only [execFn]; rw [if_pos hm]
    · simp only [execFn]; rw [if_pos hm]
    · simp only [execFn]; rw [if_pos hm]
    · simp only [execFn]; rw [if_pos hm]
  · intro s m h1 h2
    have hnone : shift14 (m % 8192) s.aReg s.qReg = none := by
      simp only [shift14]
      rw [if_neg (by omega), if_neg (by omega)]
    simp only [execFn, hnone]
  · intro s m h1 h2 h3 h4 h5 h6
    simp only [execFn]
    rw [if_neg h1, if_neg h2, if_neg h3, if_neg h4, if_neg h5, if_neg h6]

/-- C1 witness: the amended theorem applied at concrete inputs for the four
fatal-error kinds. -/
theorem C1_fatal_error_exit_witness :
    step defaultCfg c1State 1 = .halt fatalExit ∧
    execFn c1State 3 20000 = .halt fatalExit ∧
    execFn c1State 14 3000 = .halt fatalExit ∧
    execFn c1State 15 4 = .halt fatalExit := by
  refine ⟨?_, ?_, ?_, ?_⟩
  · exact C1_fatal_error_exit.1 defaultCfg c1State 1 (by decide)
  · exact C1_fatal_error_exit.2.1 c1State 20000 3 (by decide) (by decide)
  · exact C1_fatal_error_exit.2.2.1 c1State 3000 (by decide) (by decide)
  · exact C1_fatal_error_exit.2.2.2.1 c1State 4 (by decide) (by decide)
      (by decide) (by decide) (by decide) (by decide)

/-! ## Claim C2 -/

/-- C2 counterexample: at priority level 1, function 3 (Store Q) writes
straight through to cell 8180 (the first initial-orders cell): the cell
changes from 262141 to 3, so the write is not ignored. -/
theorem C2_counterexample :
    c2State.level = 1 ∧ c2State.store 8180 = 262141 ∧
    (step defaultCfg c2State 1).storeAt 8180 = some 3 ∧ (3 : Nat) ≠ 262141 := by
  exact ⟨rfl, rfl, rfl, by decide⟩

/-- C2 (amended): only function 5 (Store A) ignores level-1 writes to the
initial-instructions cells 8180..8191; for it the machine state is left
completely unchanged.  Functions 3, 10 and 11 write through. -/
theorem C2_store_a_protected (s : MachineState) (m : Nat)
    (h1 : s.level = 1) (h2 : 8180 ≤ m) (h3 : m ≤ 8191) :
    execFn s 5 m = .next s := by
  simp only [execFn]
  rw [if_pos ⟨h1, h2, h3⟩]

/-- C2 witness: the amended theorem applied at a concrete level-1 state and
address 8185. -/
theorem C2_store_a_protected_witness :
    c2State.level = 1 ∧ execFn c2State 5 8185 = .next c2State :=
  ⟨rfl, C2_store_a_protected c2State 8185 rfl (by decide) (by decide)⟩

/-! ## Claim C3 -/

/-- C3 counterexample: when the punch character count has passed the reel
cap, the write-to-punch instruction exits with code 16 through a bare
`exit()` — the store is not persisted, no residual tape is spilled and no
peripheral file is closed, contradicting the claimed orderly termination. -/
theorem C3_counterexample :
    step defaultCfg c3State 1 = .halt (exitNow EXIT_PUNSTOP) ∧
    (exitNow EXIT_PUNSTOP).code = 16 ∧
    (exitNow EXIT_PUNSTOP).storeWritten = false ∧
    (exitNow EXIT_PUNSTOP).residualSaved = false ∧
    (exitNow EXIT_PUNSTOP).filesClosed = false := by
  exact ⟨rfl, rfl, rfl, rfl, rfl⟩

/-- C3 (amended): punch overflow terminates with exit code 16, but through a
bare `exit()`: the Store is not persisted, residual reader tape is not
spilled, and peripheral files are not closed. -/
theorem C3_punch_overflow (s : MachineState) (m : Nat)
    (h1 : s.punchCount ≥ REEL) (h2 : m % 8192 = 6144) :
    execFn s 15 m = .halt (exitNow EXIT_PUNSTOP) ∧
    (exitNow EXIT_PUNSTOP).code = 16 ∧
    (exitNow EXIT_PUNSTOP).storeWritten = false := by
  refine ⟨?_, rfl, rfl⟩
  simp only [execFn, h2]
  rw [if_neg (by decide), if_neg (by decide), if_neg (by decide),
    if_pos (by decide), if_pos h1]

/-- C3 witness: the amended theorem applied at the concrete overflow state. -/
theorem C3_punch_overflow_witness :
    c3State.punchCount ≥ REEL ∧
    execFn c3State 15 6144 = .halt (exitNow EXIT_PUNSTOP) :=
  ⟨by decide, (C3_punch_overflow c3State 6144 (by decide) (by decide)).1⟩

/-! ## Claim C4 -/

/-- C4 code bug: with the level-1 B register holding 16384, the B-modified
instruction `/1 0` (function 1, Add) forms the effective address m = 16384
and the C code reads `store[16384]` with no `checkAddress` — an
out-of-bounds access, i.e. undefined behaviour instead of the claimed fatal
exit; the same instruction with function 4 (Load A), which does call
`checkAddress`, exits fatally as the claim describes. -/
theorem C4_code_bug :
    step defaultCfg c4State 1 = .undefined ∧
    step defaultCfg c4StateLoad 1 = .halt fatalExit := by
  exact ⟨rfl, rfl⟩

/-! ## Claim C5 -/

/-- C5: function 12 computes exactly the specification's multiply semantics
on A and store[m], and the concrete case A = 2, store[500] = 3 yields
A = 0 and Q = 12. -/
theorem C5_multiply :
    (∀ s m, m < STORE_SIZE →
      execFn s 12 m = .next { s with
        aReg := multiplySpecA s.aReg (s.store m)
        qReg := multiplySpecQ s.aReg (s.store m) }) ∧
    (step defaultCfg c5State 1).regA = some 0 ∧
    (step defaultCfg c5State 1).regQ = some 12 := by
  refine ⟨?_, rfl, rfl⟩
  intro s m h
  simp only [execFn, multiplySpecA, multiplySpecQ]
  rw [if_neg (by omega)]

/-- C5 witness: the general multiply theorem applied at the concrete state
(A = 2, store[500] = 3). -/
theorem C5_multiply_witness :
    (500 < STORE_SIZE) ∧
    execFn c5State 12 500 = .next { c5State with
      aReg := multiplySpecA c5State.aReg (c5State.store 500)
      qReg := multiplySpecQ c5State.aReg (c5State.store 500) } :=
  ⟨by decide, C5_multiply.1 c5State 500 (by decide)⟩

/-! ## Claim C6 -/

/-- C6 counterexample: multiplying A = 0o777777 (−1) by store[m] = 1 leaves
Q = 0o777777, not the claimed 0o000003. -/
theorem C6_counterexample :
    (step defaultCfg c6State 1).regQ = some 262143 ∧
    some (262143 : Nat) ≠ some (3 : Nat) := by
  exact ⟨rfl, by decide⟩

/-- C6 (amended): executing function 12 with A = 0o777777 (−1) and
store[m] = 1 leaves A = 0o777777 and sets Q = 0o777777; the low bit of Q is
set because A was negative. -/
theorem C6_negative_multiply :
    (step defaultCfg c6State 1).regA = some 0o777777 ∧
    (step defaultCfg c6State 1).regQ = some 0o777777 ∧
    (0o777777 : Nat) % 2 = 1 := by
  exact ⟨rfl, rfl, rfl⟩

/-! ## Claim C8 -/

/-- C8: when the end-of-iteration check finds the current SCR cell equal to
`lastSCR` (and no instruction limit is configured), the emulator writes
`lastSCR` to the stop file, persists the Store, spills residual tape, closes
files and exits with code 0; concretely, an all-zero store image with the
unconditional self-jump `(0, 8, 100)` at address 100 started at 100 halts
this way with stop file content 100. -/
theorem C8_dynamic_stop :
    (∀ cfg s lastSCR i, cfg.abandon = -1 → s.store s.scReg = lastSCR →
      postChecks cfg s lastSCR i =
        .halt { code := 0, storeWritten := true, residualSaved := true, filesClosed := true, stopFile := some lastSCR, diagPrinted := false }) ∧
    step defaultCfg c8State 1 =
      .halt { code := 0, storeWritten := true, residualSaved := true, filesClosed := true, stopFile := some 100, diagPrinted := false } := by
  refine ⟨?_, rfl⟩
  intro cfg s lastSCR i h1 h2
  simp only [postChecks, h1, h2, tidyExit, EXIT_DYNSTOP, EXIT_LIMITSTOP]
  simp

/-- C8 witness: the dynamic-stop theorem applied with the default
configuration and the concrete self-jump state. -/
theorem C8_dynamic_stop_witness :
    defaultCfg.abandon = -1 ∧
    postChecks defaultCfg c8State 100 1 =
      .halt { code := 0, storeWritten := true, residualSaved := true, filesClosed := true, stopFile := some 100, diagPrinted := false } :=
  ⟨rfl, C8_dynamic_stop.1 defaultCfg c8State 100 1 rfl (by decide)⟩

/-! ## Claim C10 -/

/-- C10: function 13 (Divide) bounds-checks m, then divides with no
zero-divisor test: the embedded step is undefined exactly when the
sign-extended divisor store[m] is zero, and no divisor value produces an
error halt — the divisor-zero case lies outside the function's domain. -/
theorem C10_divide_domain (s : MachineState) (m : Nat) (h : m < STORE_SIZE) :
    (execFn s 13 m = .undefined ↔ signed18 (s.store m) = 0) ∧
    (∀ e, execFn s 13 m ≠ .halt e) := by
  simp only [execFn]
  rw [if_neg (by omega)]
  constructor
  · split
    · simp_all
    · simp_all
  · intro e
    split <;> simp

/-- C10 witness: the divide-domain theorem applied at a concrete state whose
store is all zeros, where the divide instruction is indeed undefined. -/
theorem C10_divide_domain_witness :
    execFn c10State 13 600 = .undefined :=
  (C10_divide_domain c10State 600 (by decide)).1.mpr (by decide)


/-! ## Claim C7: shift round trip -/

/-- A supported left shift (`places = k ≤ 17 ≤ 2047`): the combined A:Q value
is multiplied by `2^k` and the two 18-bit halves are extracted. -/
theorem shift14_left (a q k : Nat) (hk : k ≤ 17) :
    shift14 k a q = some
      (intMask18 ((signed18 a * (BIT19 : Int) + (q : Int)) * 2 ^ k / (BIT19 : Int)),
       intMask18 ((signed18 a * (BIT19 : Int) + (q : Int)) * 2 ^ k)) := by
  simp only [shift14]
  rw [if_pos (by omega : k ≤ 2047), if_neg (by omega : ¬ k ≥ 36)]

/-- A supported arithmetic right shift (`places = 8192 - k` with
`1 ≤ k ≤ 17`): the combined A:Q value is floor-divided by `2^k`. -/
theorem shift14_right (a q k : Nat) (hk1 : 1 ≤ k) (hk2 : k ≤ 17) :
    shift14 (8192 - k) a q = some
      (intMask18 ((signed18 a * (BIT19 : Int) + (q : Int)) / 2 ^ k / (BIT19 : Int)),
       intMask18 ((signed18 a * (BIT19 : Int) + (q : Int)) / 2 ^ k)) := by
  simp only [shift14]
  rw [if_neg (by omega : ¬ (8192 - k) ≤ 2047),
    if_pos (by omega : (8192 - k) ≥ 6144),
    Nat.sub_sub_self (by omega : k ≤ 8192),
    if_neg (by omega : ¬ k ≥ 36)]

/-- Splitting a 36-bit two's-complement value into its 18-bit halves and
reassembling with sign extension of the high half is the identity. -/
theorem aql_reconstruct (y : Int) (h1 : -(2 ^ 35) ≤ y) (h2 : y < 2 ^ 35) :
    signed18 (intMask18 (y / (BIT19 : Int))) * (BIT19 : Int) +
      ((intMask18 y : Nat) : Int) = y := by
  simp only [signed18, intMask18, BIT18, BIT19]
  split <;> omega

/-- The high 18-bit half of the combined A:Q value is the original A. -/
theorem intMask18_div_aql (a q : Nat) (ha : a < 262144) (hq : q < 262144) :
    intMask18 ((signed18 a * (BIT19 : Int) + (q : Int)) / (BIT19 : Int)) = a := by
  simp only [signed18, intMask18, BIT18, BIT19]
  split <;> omega

/-- C7 counterexample: A = 0o400000 (−2¹⁷), Q = 0, k = 1: the left shift
pushes the sign bit out of the 36-bit combined register, and the round trip
returns A = 0, not the original value. -/
theorem C7_counterexample :
    ((shift14 1 131072 0).bind fun p => shift14 8191 p.1 p.2).map Prod.fst
      = some 0 ∧
    some (0 : Nat) ≠ some (131072 : Nat) := by
  exact ⟨rfl, by decide⟩

/-- C7 (amended): for 18-bit A and Q and 1 ≤ k ≤ 17, a left shift of k
places followed by an arithmetic right shift of k places (place count
8192 − k) restores A, provided the shifted combined value still fits in the
36-bit A:Q register (no overflow of signed(A:Q)·2^k). -/
theorem C7_shift_roundtrip (a q k : Nat) (ha : a < 262144) (hq : q < 262144)
    (hk1 : 1 ≤ k) (hk2 : k ≤ 17)
    (hlo : -(2 ^ 35) ≤ (signed18 a * (BIT19 : Int) + (q : Int)) * 2 ^ k)
    (hhi : (signed18 a * (BIT19 : Int) + (q : Int)) * 2 ^ k < 2 ^ 35) :
    ((shift14 k a q).bind fun p => shift14 (8192 - k) p.1 p.2).map Prod.fst
      = some a := by
  rw [shift14_left a q k hk2]
  show ((shift14 (8192 - k)
      (intMask18 ((signed18 a * (BIT19 : Int) + (q : Int)) * 2 ^ k / (BIT19 : Int)))
      (intMask18 ((signed18 a * (BIT19 : Int) + (q : Int)) * 2 ^ k)))).map Prod.fst
      = some a
  rw [shift14_right _ _ k hk1 hk2]
  rw [aql_reconstruct ((signed18 a * (BIT19 : Int) + (q : Int)) * 2 ^ k) hlo hhi]
  rw [Int.mul_ediv_cancel _ (pow_ne_zero k (by norm_num : (2 : Int) ≠ 0))]
  rw [intMask18_div_aql a q ha hq]
  rfl

/-- C7 witness: the round-trip theorem applied at A = 1, Q = 0, k = 1, where
no overflow occurs. -/
theorem C7_shift_roundtrip_witness :
    ((shift14 1 1 0).bind fun p => shift14 (8192 - 1) p.1 p.2).map Prod.fst
      = some 1 :=
  C7_shift_roundtrip 1 0 1 (by decide) (by decide) (by decide) (by decide)
    (by decide) (by decide)


/-! ## Claim C9: layout of the store dump -/

/-- The `writeStore` loop over `a + b` cells splits into the loop over the
first `a` cells followed by the loop over the remaining `b`. -/
theorem writeItems_add (st : Nat → Nat) :
    ∀ (a b i : Nat),
      writeItems st i (a + b) = writeItems st i a ++ writeItems st (i + a) b := by
  intro a
  induction a with
  | zero =>
    intro b i
    simp [writeItems]
  | succ a ih =>
    intro b i
    rw [show a + 1 + b = (a + b) + 1 from by omega]
    simp only [writeItems]
    rw [ih b (i + 1), show i + 1 + a = i + (a + 1) from by omega]
    simp [List.append_assoc]

/-- A run of cells none of which triggers the newline condition produces
plain fields. -/
theorem writeItems_fields (st : Nat → Nat) :
    ∀ (n i : Nat), (∀ k, i ≤ k → k < i + n → ¬(k % 10 = 0 ∧ k ≠ 0)) →
      writeItems st i n = (cellRun i n).map (fun k => OutItem.field (st k)) := by
  intro n
  induction n with
  | zero =>
    intro i _
    simp [writeItems, cellRun]
  | succ n ih =>
    intro i h
    simp only [writeItems, cellRun, List.map_cons]
    rw [if_neg (h i (Nat.le_refl i) (by omega))]
    rw [ih (i + 1) (fun k hk1 hk2 => h k (by omega) (by omega))]
    simp

/-- A single cell that does trigger the newline condition produces its field
followed by a newline. -/
theorem writeItems_nlCell (st : Nat → Nat) (i : Nat)
    (h1 : i % 10 = 0) (h2 : i ≠ 0) :
    writeItems st i 1 = [OutItem.field (st i), OutItem.nl] := by
  simp only [writeItems]
  rw [if_pos ⟨h1, h2⟩]
  simp

/-- The length of a cell run. -/
theorem cellRun_length : ∀ (n i : Nat), (cellRun i n).length = n := by
  intro n
  induction n with
  | zero => intro i; rfl
  | succ n ih => intro i; simp [cellRun, ih]

/-- Consuming a block of fields adds its length to the current line count. -/
theorem lineLens_fields (st : Nat → Nat) :
    ∀ (l : List Nat) (ys : List OutItem) (acc : Nat),
      lineLens ((l.map fun k => OutItem.field (st k)) ++ ys) acc =
        lineLens ys (acc + l.length) := by
  intro l
  induction l with
  | nil =>
    intro ys acc
    simp
  | cons x l ih =>
    intro ys acc
    simp only [List.map_cons, List.cons_append, lineLens, List.length_cons,
      List.append_eq]
    rw [ih ys (acc + 1)]
    congr 1
    omega

/-- Consuming a field followed by a newline closes the current line. -/
theorem lineLens_field_nl (v : Nat) (rest : List OutItem) (acc : Nat) :
    lineLens (OutItem.field v :: OutItem.nl :: rest) acc =
      (acc + 1) :: lineLens rest 0 := rfl

/-- From any cell index congruent to 1 mod 10, a run of `10*c + 3` cells
yields `c` full lines of ten words and a final line of three. -/
theorem lineLens_tail (st : Nat → Nat) :
    ∀ (c i : Nat), i % 10 = 1 →
      lineLens (writeItems st i (10 * c + 3)) 0 =
        List.replicate c 10 ++ [3] := by
  intro c
  induction c with
  | zero =>
    intro i hi
    rw [show 10 * 0 + 3 = 3 from by norm_num]
    rw [writeItems_fields st 3 i (by intro k hk1 hk2; omega)]
    rw [← List.append_nil ((cellRun i 3).map fun k => OutItem.field (st k))]
    rw [lineLens_fields st (cellRun i 3) [] 0, cellRun_length]
    simp [lineLens]
  | succ c ih =>
    intro i hi
    rw [show 10 * (c + 1) + 3 = 9 + (1 + (10 * c + 3)) from by omega]
    rw [writeItems_add st 9 (1 + (10 * c + 3)) i,
      writeItems_add st 1 (10 * c + 3) (i + 9)]
    rw [writeItems_fields st 9 i (by intro k hk1 hk2; omega)]
    rw [writeItems_nlCell st (i + 9) (by omega) (by omega)]
    rw [show i + 9 + 1 = i + 10 from by omega]
    rw [lineLens_fields st (cellRun i 9) _ 0, cellRun_length]
    simp only [List.cons_append, List.nil_append]
    rw [lineLens_field_nl, ih (i + 10) (by omega)]
    simp [List.replicate_succ]

/-- The full layout of the `writeStore` output: an 11-word first line, 1637
ten-word lines, a final three-word line, and the dump ends with the field
for cell 16383, not a newline. -/
theorem writeStore_layout (st : Nat → Nat) :
    lineLens (writeStoreOut st) 0 = 11 :: (List.replicate 1637 10 ++ [3]) := by
  rw [writeStoreOut, show STORE_SIZE = 10 + (1 + (10 * 1637 + 3)) from by
    norm_num [STORE_SIZE]]
  rw [writeItems_add st 10 (1 + (10 * 1637 + 3)) 0,
    writeItems_add st 1 (10 * 1637 + 3) (0 + 10)]
  rw [writeItems_fields st 10 0 (by intro k hk1 hk2; omega)]
  rw [show (0 : Nat) + 10 = 10 from by norm_num]
  rw [writeItems_nlCell st 10 (by norm_num) (by norm_num)]
  rw [show (10 : Nat) + 1 = 11 from by norm_num]
  rw [lineLens_fields st (cellRun 0 10) _ 0, cellRun_length]
  simp only [List.cons_append, List.nil_append]
  rw [lineLens_field_nl, lineLens_tail st 1637 11 (by norm_num)]

/-- The last item of the `writeStore` output is the field for cell 16383. -/
theorem writeStore_last (st : Nat → Nat) :
    (writeStoreOut st).getLast? = some (OutItem.field (st 16383)) := by
  rw [writeStoreOut, show STORE_SIZE = 16381 + 3 from by norm_num [STORE_SIZE]]
  rw [writeItems_add st 16381 3 0]
  rw [show (0 : Nat) + 16381 = 16381 from by norm_num]
  rw [writeItems_fields st 3 16381 (by intro k hk1 hk2; omega)]
  rw [List.getLast?_append_of_ne_nil _ (by simp [cellRun])]
  norm_num [cellRun]

/-- C9 counterexample: on the all-zero store the first output line of the
dump holds eleven words, not ten, and the output ends with a field, not a
newline. -/
theorem C9_counterexample :
    (lineLens (writeStoreOut clearedStore) 0).head? = some 11 ∧
    (11 : Nat) ≠ 10 ∧
    (writeStoreOut clearedStore).getLast? = some (OutItem.field 0) := by
  refine ⟨?_, by decide, ?_⟩
  · rw [writeStore_layout clearedStore]
    rfl
  · rw [writeStore_last clearedStore]
    rfl

/-- C9 (amended): `writeStore` dumps all 16 384 words in seven-column
decimal fields, printing a newline after each word whose index is a nonzero
multiple of ten: the first line holds eleven words, the following 1637 lines
ten each, the final line three, and the output ends with the last word —
there is no terminating newline. -/
theorem C9_store_dump_layout (st : Nat → Nat) :
    lineLens (writeStoreOut st) 0 = 11 :: (List.replicate 1637 10 ++ [3]) ∧
    (writeStoreOut st).getLast? = some (OutItem.field (st 16383)) :=
  ⟨writeStore_layout st, writeStore_last st⟩

end Emu900
